import Mathlib

set_option maxHeartbeats 1000000

/-!
Verification of the terraform-resource state-lifecycle orchestration layer.

The definitions below are a shallow embedding of the Go sources:
`terraform/action.go` (the `Action` apply/destroy state machine),
the `in` runner (two historical versions), and the `models` version
identity.  External effects (the provisioning engine, the storage
driver, the filesystem) are modelled as oracle outcomes supplied in a
`Behavior`/`InEnv` record; engine invocations are recorded in a call
trace so that theorems can speak about which external calls happened.
-/

namespace TR

/-- A single-quote character as a string, used in diagnostic messages. -/
def squote : String := String.singleton (Char.ofNat 39)

/-- JSON values appearing in a parsed terraform state document
(`action.go` unmarshals the pulled state into `map[string]interface{}`;
numbers are modelled as integers). -/
inductive JVal where
  | num (n : Int)
  | str (s : String)
  | bool (b : Bool)
  | null
  deriving DecidableEq, Repr

/-- Rendering of a JSON value used in the `%#v`-style diagnostic of
`currentSerial`. -/
def JVal.goShow : JVal → String
  | .num n => toString n
  | .str s => s
  | .bool b => if b then "true" else "false"
  | .null => "<nil>"

/-- Rendering of an optional JSON value (a missing map key prints as nil). -/
def goShowOpt : Option JVal → String
  | none => "<nil>"
  | some v => v.goShow

/-- Go `interface{}` values stored under the "value" key of an output
record.  `unserializable` stands for a value on which `json.Marshal`
fails with the given error text. -/
inductive GoVal where
  | str (s : String)
  | num (n : Int)
  | bool (b : Bool)
  | null
  | unserializable (msg : String)
  deriving DecidableEq, Repr

/-- JSON string escaping for one character (quote and backslash). -/
def escapeJsonChar (c : Char) : String :=
  if c = '"' then "\\\"" else if c = '\\' then "\\\\" else String.singleton c

/-- JSON string escaping, as performed by `json.Marshal` on a Go string. -/
def escapeJson (s : String) : String :=
  String.join (s.toList.map escapeJsonChar)

/-- Model of `json.Marshal` on an output value: canonical serialized text, or an
error for unserializable values. -/
def jsonMarshal : GoVal → Except String String
  | .str s => .ok ("\"" ++ escapeJson s ++ "\"")
  | .num n => .ok (toString n)
  | .bool b => .ok (if b then "true" else "false")
  | .null => .ok "null"
  | .unserializable m => .error m

/-- Go `strings.Trim(s, "\"")`: remove every leading and trailing
quote character. -/
def trimQuote (s : String) : String :=
  String.mk (((s.toList.dropWhile (fun c => c = '"')).reverse.dropWhile
    (fun c => c = '"')).reverse)

/-- Modelled from the spec: the `models.Version` identity (spec section 3,
"VersionIdentity"); the `models` package source is not under `src/`, only
its tests and callers are.  Fields: `EnvName`, `Serial` (present only in
native-workspace mode, hence optional), `StorageVersion` (the abstract token,
legacy mode), and the plan-only marker consulted by `IsPlan()`. -/
structure Version where
  EnvName : String
  Serial : Option Int
  StorageVersion : String
  PlanOnly : Bool
  deriving DecidableEq, Repr

/-- The zero-value identity: per the spec it means "no state exists yet". -/
def Version.zero : Version := ⟨"", none, "", false⟩

/-- Modelled from the spec: `IsZero()` is true iff no real state is
represented (all identity fields are at their zero values). -/
def Version.IsZero (v : Version) : Bool := decide (v = Version.zero)

/-- Modelled from the spec: `IsPlan()` - the request variant that
previews rather than mutates. -/
def Version.IsPlan (v : Version) : Bool := v.PlanOnly

/-- Modelled from the spec: `Validate()` fails iff the required
`EnvName` field (spec section 3: "string, non-empty") is missing. -/
def Version.Validate (v : Version) : Option String :=
  if v.EnvName = "" then
    some ("Missing required field " ++ squote ++ "env_name" ++ squote)
  else none

/-- Modelled from the spec (section 6): the `destroy` action selector of
a request params. -/
def DestroyAction : String := "destroy"

/-- One output record: the Go code stores `map[string]interface{}` with
keys "value" and "sensitive" and tests `value["sensitive"] == true`;
the `sensitive` field models whether that comparison holds. -/
structure OutputRecord where
  value : GoVal
  sensitive : Bool
  deriving DecidableEq, Repr

/-- Model of `terraform.Result`: version identity plus output records (the Go
`map[string]map[string]interface{}` is modelled as an association list). -/
structure Result where
  Version : TR.Version
  Output : List (String × OutputRecord)
  deriving DecidableEq, Repr

/-- The Go zero value `Result{}`. -/
def Result.zero : Result := ⟨Version.zero, []⟩

/-- Model of `Result.RawOutput`: extract the raw value from every output record. -/
def Result.RawOutput (r : Result) : List (String × GoVal) :=
  r.Output.map (fun kv => (kv.1, kv.2.value))

/-- The per-key body of `Result.SanitizedOutput`: redact sensitive
records, otherwise marshal the value (falling back to a diagnostic
naming the key and the error) and trim surrounding quotes. -/
def sanitizeRecord (key : String) (v : OutputRecord) : String :=
  if v.sensitive then "<sensitive>"
  else
    match jsonMarshal v.value with
    | .ok jsonValue => trimQuote jsonValue
    | .error e =>
      trimQuote ("Unable to parse output value for key " ++ squote ++ key ++
        squote ++ ": " ++ e)

/-- Model of `Result.SanitizedOutput`: the display view of the outputs. -/
def Result.SanitizedOutput (r : Result) : List (String × String) :=
  r.Output.map (fun kv => (kv.1, sanitizeRecord kv.1 kv.2))

/-- The engine invocations made by an `Action`, recorded as a trace. -/
inductive Call where
  | initCall
  | importCall
  | listCall
  | newCall (name : String)
  | applyCall
  | destroyCall
  | deleteCall (name : String)
  | pullCall
  | outputCall
  deriving DecidableEq, Repr

/-- Number of `Client.Destroy` invocations in a trace. -/
def countDestroy : List Call → Nat
  | [] => 0
  | c :: t => (if c = .destroyCall then 1 else 0) + countDestroy t

/-- Number of `Client.Apply` invocations in a trace. -/
def countApply : List Call → Nat
  | [] => 0
  | c :: t => (if c = .applyCall then 1 else 0) + countApply t

/-- Number of `Client.WorkspaceNew name` invocations in a trace. -/
def countNew (name : String) : List Call → Nat
  | [] => 0
  | c :: t => (if c = .newCall name then 1 else 0) + countNew name t

/-- Number of `Client.WorkspaceDelete name` invocations in a trace. -/
def countDelete (name : String) : List Call → Nat
  | [] => 0
  | c :: t => (if c = .deleteCall name then 1 else 0) + countDelete name t

/-- Modelled from the spec: the engine-side workspace bookkeeping (the
provisioning engine is an external command; per spec section 4.4
`WorkspaceNew` creates a workspace that `WorkspaceList` then reports). -/
structure ClientState where
  workspaces : List String
  deriving DecidableEq, Repr

/-- Outcome of `Client.StatePull` followed by `json.Unmarshal` in
`currentSerial`: either the bytes do not parse, or they parse to a
top-level JSON object. -/
inductive RawState where
  | malformed (err : String) (output : String)
  | parsed (fields : List (String × JVal))
  deriving DecidableEq, Repr

/-- The oracle outcomes of the engine calls of one invocation: each fallible
`Client` operation either succeeds or fails with the given error text. -/
structure Behavior where
  initErr : Option String
  importErr : Option String
  listErr : Option String
  newErr : String → Option String
  applyErr : Option String
  destroyErr : Option String
  deleteErr : String → Option String
  pullRes : Except String RawState
  outputRes : Except String (List (String × OutputRecord))

/-- Model of `Client.WorkspaceList`: report the workspaces of the engine. -/
def Client.workspaceList (b : Behavior) (s : ClientState) :
    Except String (List String) × ClientState × List Call :=
  match b.listErr with
  | some e => (.error e, s, [.listCall])
  | none => (.ok s.workspaces, s, [.listCall])

/-- Model of `Client.WorkspaceNew`: create a workspace (engine side effect
modelled from the spec: the new name is subsequently listed). -/
def Client.workspaceNew (b : Behavior) (name : String) (s : ClientState) :
    Except String Unit × ClientState × List Call :=
  match b.newErr name with
  | some e => (.error e, s, [.newCall name])
  | none => (.ok (), { s with workspaces := s.workspaces ++ [name] }, [.newCall name])

/-- Model of `Client.WorkspaceDelete`: delete a workspace. -/
def Client.workspaceDelete (b : Behavior) (name : String) (s : ClientState) :
    Except String Unit × ClientState × List Call :=
  match b.deleteErr name with
  | some e => (.error e, s, [.deleteCall name])
  | none =>
    (.ok (), { s with workspaces := s.workspaces.filter (fun w => w ≠ name) },
      [.deleteCall name])

/-- Model of `terraform.Action`: the orchestrator configuration. -/
structure Action where
  EnvName : String
  DeleteOnFailure : Bool

/-- Model of `Action.setup`: `InitWithBackend` then `Import`; the first failure
aborts. -/
def Action.setup (a : Action) (b : Behavior) : Except String Unit × List Call :=
  match b.initErr with
  | some e => (.error e, [.initCall])
  | none =>
    match b.importErr with
    | some e => (.error e, [.initCall, .importCall])
    | none => (.ok (), [.initCall, .importCall])

/-- Model of `Action.currentSerial`: `StatePull`, unmarshal, then extract the
top-level numeric `serial` field. -/
def Action.currentSerial (a : Action) (b : Behavior) :
    Except String Int × List Call :=
  match b.pullRes with
  | .error e => (.error e, [.pullCall])
  | .ok (.malformed err output) =>
    (.error ("Failed to unmarshal JSON output.\nError: " ++ err ++
      "\nOutput: " ++ output), [.pullCall])
  | .ok (.parsed fields) =>
    match fields.lookup "serial" with
    | some (.num n) => (.ok n, [.pullCall])
    | v =>
      (.error ("Expected number value for " ++ squote ++ "serial" ++ squote ++
        " but got " ++ squote ++ goShowOpt v ++ squote), [.pullCall])

/-- Model of `Action.createWorkspaceIfNotExists`: list the workspaces and create
the target only when absent. -/
def Action.createWorkspaceIfNotExists (a : Action) (b : Behavior) (s : ClientState) :
    Except String Unit × ClientState × List Call :=
  match Client.workspaceList b s with
  | (.error e, s1, t1) => (.error e, s1, t1)
  | (.ok workspaces, s1, t1) =>
    if a.EnvName ∈ workspaces then (.ok (), s1, t1)
    else
      match Client.workspaceNew b a.EnvName s1 with
      | (res, s2, t2) => (res, s2, t1 ++ t2)

/-- Model of `Action.attemptApply`: ensure workspace, `Client.Apply`, then the
finalize phase (`currentSerial`, `Client.Output`, assemble the Result). -/
def Action.attemptApply (a : Action) (b : Behavior) (s : ClientState) :
    Except String Result × ClientState × List Call :=
  match a.createWorkspaceIfNotExists b s with
  | (.error e, s1, t1) => (.error e, s1, t1)
  | (.ok _, s1, t1) =>
    match b.applyErr with
    | some e => (.error e, s1, t1 ++ [.applyCall])
    | none =>
      match (a.currentSerial b).1 with
      | .error e => (.error e, s1, t1 ++ [.applyCall] ++ (a.currentSerial b).2)
      | .ok serial =>
        match b.outputRes with
        | .error e =>
          (.error e, s1, t1 ++ [.applyCall] ++ (a.currentSerial b).2 ++ [.outputCall])
        | .ok clientOutput =>
          (.ok { Output := clientOutput,
                 Version := ⟨a.EnvName, some serial, "", false⟩ },
            s1, t1 ++ [.applyCall] ++ (a.currentSerial b).2 ++ [.outputCall])

/-- Model of `Action.attemptDestroy`: `Client.Destroy` then
`Client.WorkspaceDelete`, returning an empty-output Result carrying only
the environment name. -/
def Action.attemptDestroy (a : Action) (b : Behavior) (s : ClientState) :
    Except String Result × ClientState × List Call :=
  match b.destroyErr with
  | some e => (.error e, s, [.destroyCall])
  | none =>
    match Client.workspaceDelete b a.EnvName s with
    | (.error e, s1, t1) => (.error e, s1, .destroyCall :: t1)
    | (.ok _, s1, t1) =>
      (.ok { Output := [], Version := ⟨a.EnvName, none, "", false⟩ },
        s1, .destroyCall :: t1)

/-- Model of `Action.Apply`: setup, attempt the apply, wrap a failure as an
apply error, and when `DeleteOnFailure` is set run the compensating
destroy, concatenating a destroy failure onto the apply error.  Returns
the Go pair (result, error) plus the final engine state and call trace. -/
def Action.Apply (a : Action) (b : Behavior) (s : ClientState) :
    (Result × Option String) × ClientState × List Call :=
  match a.setup b with
  | (.error e, t0) => ((Result.zero, some e), s, t0)
  | (.ok _, t0) =>
    match a.attemptApply b s with
    | (.error e0, s1, t1) =>
      match a.DeleteOnFailure with
      | true =>
        match a.attemptDestroy b s1 with
        | (.error destroyErr, s2, t2) =>
          ((Result.zero, some ("Apply Error: " ++ e0 ++ "\nDestroy Error: " ++
            destroyErr)), s2, t0 ++ t1 ++ t2)
        | (.ok _, s2, t2) =>
          ((Result.zero, some ("Apply Error: " ++ e0)), s2, t0 ++ t1 ++ t2)
      | false => ((Result.zero, some ("Apply Error: " ++ e0)), s1, t0 ++ t1)
    | (.ok result, s1, t1) => ((result, none), s1, t0 ++ t1)

/-- Model of `Action.Destroy`: setup then the destroy protocol. -/
def Action.Destroy (a : Action) (b : Behavior) (s : ClientState) :
    Except String Result × ClientState × List Call :=
  match a.setup b with
  | (.error e, t0) => (.error e, s, t0)
  | (.ok _, t0) =>
    match a.attemptDestroy b s with
    | (res, s1, t1) => (res, s1, t0 ++ t1)

/-- External calls made by the `in` runner, recorded as a trace. -/
inductive InCall where
  | tempDir
  | storageProbe
  | stateDownload
  | engineInit
  | engineList
  | engineOutput
  | enginePull
  | engineVersionCall
  | metadataCreate
  | metadataEncode
  | stateRead
  | stateWrite
  | nameCreate
  deriving DecidableEq, Repr

/-- Modelled from the spec: `models.NewVersion` builds the legacy-mode
identity from the storage version token assigned by the remote store
(spec sections 3 and 4.6); the `models` package source is not under
`src/`. -/
def NewVersion (tok : String) (envName : String) : Version :=
  ⟨envName, none, tok, false⟩

/-- Modelled from the spec: `models.NewVersionFromLegacyStorage`, same
identity construction as `NewVersion` for the current runner. -/
def NewVersionFromLegacyStorage (tok : String) (envName : String) : Version :=
  ⟨envName, none, tok, false⟩

/-- The historical `in` runner request: version plus `params.action`. -/
structure InRequestOld where
  Version : TR.Version
  ActionParam : String

/-- The historical `in` runner response (metadata values are raw Go
values there). -/
structure InResponseOld where
  Version : TR.Version
  Metadata : List (String × GoVal)
  deriving DecidableEq, Repr

/-- Oracle outcomes for the historical `in` runner external effects. -/
structure InEnvOld where
  tmpBase : String
  outputDir : String
  tempDirErr : Bool
  storageValidateErr : Option String
  terraformValidateErr : Option String
  downloadRes : Except String String
  outputRes : Except String (List (String × GoVal))
  metadataCreateErr : Option String
  encodeErr : Option String

/-- The historical `in` runner (`Runner.Run` of the legacy-only version):
validate the version, short-circuit destroy gets, then download the
state blob, read outputs and write the metadata file. -/
def RunnerOld.Run (env : InEnvOld) (req : InRequestOld) :
    Except String InResponseOld × List InCall :=
  match req.Version.Validate with
  | some e => (.error ("Invalid Version request: " ++ e), [])
  | none =>
    if req.ActionParam = DestroyAction then
      (.ok { Version := req.Version, Metadata := [] }, [])
    else
      if env.tempDirErr then
        (.error ("Failed to create tmp dir at " ++ squote ++ env.tmpBase ++ squote),
          [.tempDir])
      else
        match env.storageValidateErr with
        | some e => (.error ("Failed to validate storage Model: " ++ e), [.tempDir])
        | none =>
          match env.terraformValidateErr with
          | some e =>
            (.error ("Failed to validate terraform Model: " ++ e), [.tempDir])
          | none =>
            match env.downloadRes with
            | .error e =>
              (.error ("Failed to download state file from storage backend: " ++ e),
                [.tempDir, .stateDownload])
            | .ok tok =>
              if tok = "" then
                (.error ("StateFile does not exist with key " ++ squote ++
                  req.Version.EnvName ++ ".tfstate" ++ squote),
                  [.tempDir, .stateDownload])
              else
                match env.outputRes with
                | .error e =>
                  (.error ("Failed to parse terraform output.\nError: " ++ e),
                    [.tempDir, .stateDownload, .engineOutput])
                | .ok output =>
                  match env.metadataCreateErr with
                  | some e =>
                    (.error ("Failed to create output file at path " ++ squote ++
                      env.outputDir ++ "/metadata" ++ squote ++ ": " ++ e),
                      [.tempDir, .stateDownload, .engineOutput, .metadataCreate])
                  | none =>
                    match env.encodeErr with
                    | some e =>
                      (.error ("Failed to write output file: " ++ e),
                        [.tempDir, .stateDownload, .engineOutput, .metadataCreate,
                          .metadataEncode])
                    | none =>
                      (.ok { Version := NewVersion tok req.Version.EnvName,
                             Metadata := output },
                        [.tempDir, .stateDownload, .engineOutput, .metadataCreate,
                          .metadataEncode])

/-- The current `in` runner request: version, `params.action`,
`params.output_module`, `params.output_statefile` and
`source.backend_type`. -/
structure InRequest where
  Version : TR.Version
  ActionParam : String
  OutputModule : String
  OutputStatefile : Bool
  BackendType : String

/-- The current `in` runner response (metadata values are sanitized
display strings). -/
structure InResponse where
  Version : TR.Version
  Metadata : List (String × String)
  deriving DecidableEq, Repr

/-- Oracle outcomes for the current `in` runner external effects,
covering both the backend path and the legacy-storage path. -/
structure InEnv where
  tmpBase : String
  outputDir : String
  tempDirErr : Bool
  terraformValidateErr : Option String
  initErr : Option String
  listRes : Except String (List String)
  outputRes : Except String (List (String × OutputRecord))
  engineVersionRes : Except String String
  pullRes : Except String String
  storageValidateErr : Option String
  probeRes : Except String String
  legacyTerraformValidateErr : Option String
  downloadRes : Except String String
  legacyOutputRes : Except String (List (String × OutputRecord))
  metadataCreateErr : Option String
  encodeErr : Option String
  stateReadRes : Except String String
  stateWriteErr : Option String
  nameCreateErr : Option String

/-- Model of `Runner.inWithBackend`: plan versions are answered immediately with
the version of the request; otherwise init the backend, require the
workspace to exist, read outputs, write metadata (sanitized view plus
the engine version) and echo the version of the request. -/
def Runner.inWithBackend (env : InEnv) (req : InRequest) :
    Except String InResponse × List InCall :=
  if req.Version.IsPlan then
    (.ok { Version := req.Version, Metadata := [] }, [])
  else
    match env.terraformValidateErr with
    | some e => (.error ("Failed to validate terraform Model: " ++ e), [])
    | none =>
      match env.initErr with
      | some e => (.error e, [.engineInit])
      | none =>
        match env.listRes with
        | .error e => (.error e, [.engineInit, .engineList])
        | .ok spaces =>
          if req.Version.EnvName ∈ spaces then
            match env.outputRes with
            | .error e =>
              (.error ("Failed to parse terraform output.\nError: " ++ e),
                [.engineInit, .engineList, .engineOutput])
            | .ok tfOutput =>
              match env.metadataCreateErr with
              | some e =>
                (.error ("Failed to create output file at path " ++ squote ++
                  env.outputDir ++ "/metadata" ++ squote ++ ": " ++ e),
                  [.engineInit, .engineList, .engineOutput, .metadataCreate])
              | none =>
                match env.encodeErr with
                | some e =>
                  (.error ("Failed to write output file: " ++ e),
                    [.engineInit, .engineList, .engineOutput, .metadataCreate,
                      .metadataEncode])
                | none =>
                  match env.engineVersionRes with
                  | .error e =>
                    (.error e,
                      [.engineInit, .engineList, .engineOutput, .metadataCreate,
                        .metadataEncode, .engineVersionCall])
                  | .ok tfVersion =>
                    if req.OutputStatefile then
                      match env.pullRes with
                      | .error e =>
                        (.error e,
                          [.engineInit, .engineList, .engineOutput, .metadataCreate,
                            .metadataEncode, .engineVersionCall, .enginePull])
                      | .ok _ =>
                        match env.stateWriteErr with
                        | some e =>
                          (.error e,
                            [.engineInit, .engineList, .engineOutput,
                              .metadataCreate, .metadataEncode, .engineVersionCall,
                              .enginePull, .stateWrite])
                        | none =>
                          (.ok { Version := req.Version,
                                 Metadata :=
                                   Result.SanitizedOutput ⟨Version.zero, tfOutput⟩ ++
                                     [("terraform_version", tfVersion)] },
                            [.engineInit, .engineList, .engineOutput,
                              .metadataCreate, .metadataEncode, .engineVersionCall,
                              .enginePull, .stateWrite])
                    else
                      (.ok { Version := req.Version,
                             Metadata :=
                               Result.SanitizedOutput ⟨Version.zero, tfOutput⟩ ++
                                 [("terraform_version", tfVersion)] },
                        [.engineInit, .engineList, .engineOutput, .metadataCreate,
                          .metadataEncode, .engineVersionCall])
          else
            (.error ("Workspace " ++ squote ++ req.Version.EnvName ++ squote ++
              " does not exist in backend." ++
              "\nIf you intended to run the `destroy` action, add `put.get_params.action: destroy`." ++
              "\nThis is a temporary requirement until Concourse supports a `delete` step."),
              [.engineInit, .engineList])

/-- Model of `Runner.inWithLegacyStorage`: probe the store for the state blob; if
absent, succeed for plan versions and fail with a not-found error
otherwise; if present, download it, read outputs, write metadata and
return the storage-token identity. -/
def Runner.inWithLegacyStorage (env : InEnv) (req : InRequest) :
    Except String InResponse × List InCall :=
  match env.storageValidateErr with
  | some e => (.error ("Failed to validate storage Model: " ++ e), [])
  | none =>
    match env.probeRes with
    | .error e =>
      (.error ("Failed to check for existing state file: " ++ e), [.storageProbe])
    | .ok probeTok =>
      if probeTok = "" then
        if req.Version.IsPlan then
          (.ok { Version := req.Version, Metadata := [] }, [.storageProbe])
        else
          (.error ("State file does not exist with key " ++ squote ++
            req.Version.EnvName ++ ".tfstate" ++ squote ++ "." ++
            "\nIf you intended to run the `destroy` action, add `put.get_params.action: destroy`." ++
            "\nThis is a temporary requirement until Concourse supports a `delete` step."),
            [.storageProbe])
      else
        match env.legacyTerraformValidateErr with
        | some e =>
          (.error ("Failed to validate terraform Model: " ++ e), [.storageProbe])
        | none =>
          match env.downloadRes with
          | .error e =>
            (.error ("Failed to download state file from storage backend: " ++ e),
              [.storageProbe, .stateDownload])
          | .ok tok =>
            match env.legacyOutputRes with
            | .error e =>
              (.error ("Failed to parse terraform output.\nError: " ++ e),
                [.storageProbe, .stateDownload, .engineOutput])
            | .ok tfOutput =>
              match env.metadataCreateErr with
              | some e =>
                (.error ("Failed to create output file at path " ++ squote ++
                  env.outputDir ++ "/metadata" ++ squote ++ ": " ++ e),
                  [.storageProbe, .stateDownload, .engineOutput, .metadataCreate])
              | none =>
                match env.encodeErr with
                | some e =>
                  (.error ("Failed to write output file: " ++ e),
                    [.storageProbe, .stateDownload, .engineOutput, .metadataCreate,
                      .metadataEncode])
                | none =>
                  match env.engineVersionRes with
                  | .error e =>
                    (.error e,
                      [.storageProbe, .stateDownload, .engineOutput,
                        .metadataCreate, .metadataEncode, .engineVersionCall])
                  | .ok tfVersion =>
                    if req.OutputStatefile then
                      match env.stateReadRes with
                      | .error e =>
                        (.error e,
                          [.storageProbe, .stateDownload, .engineOutput,
                            .metadataCreate, .metadataEncode, .engineVersionCall,
                            .stateRead])
                      | .ok _ =>
                        match env.stateWriteErr with
                        | some e =>
                          (.error e,
                            [.storageProbe, .stateDownload, .engineOutput,
                              .metadataCreate, .metadataEncode, .engineVersionCall,
                              .stateRead, .stateWrite])
                        | none =>
                          (.ok { Version :=
                                   NewVersionFromLegacyStorage tok req.Version.EnvName,
                                 Metadata :=
                                   Result.SanitizedOutput ⟨Version.zero, tfOutput⟩ ++
                                     [("terraform_version", tfVersion)] },
                            [.storageProbe, .stateDownload, .engineOutput,
                              .metadataCreate, .metadataEncode, .engineVersionCall,
                              .stateRead, .stateWrite])
                    else
                      (.ok { Version :=
                               NewVersionFromLegacyStorage tok req.Version.EnvName,
                             Metadata :=
                               Result.SanitizedOutput ⟨Version.zero, tfOutput⟩ ++
                                 [("terraform_version", tfVersion)] },
                        [.storageProbe, .stateDownload, .engineOutput,
                          .metadataCreate, .metadataEncode, .engineVersionCall])

/-- The current `in` runner entry point `Run`: validate the version, short-circuit
destroy gets, then dispatch on the configured backend type and finally
write the `name` file. -/
def Runner.Run (env : InEnv) (req : InRequest) :
    Except String InResponse × List InCall :=
  match req.Version.Validate with
  | some e => (.error ("Invalid Version request: " ++ e), [])
  | none =>
    if req.ActionParam = DestroyAction then
      (.ok { Version := req.Version, Metadata := [] }, [])
    else
      if env.tempDirErr then
        (.error ("Failed to create tmp dir at " ++ squote ++ env.tmpBase ++ squote),
          [.tempDir])
      else
        match (if req.BackendType = "" then Runner.inWithLegacyStorage env req
               else Runner.inWithBackend env req) with
        | (.error e, t) => (.error e, .tempDir :: t)
        | (.ok resp, t) =>
          match env.nameCreateErr with
          | some e =>
            (.error ("Failed to create name file at path " ++ squote ++
              env.outputDir ++ "/name" ++ squote ++ ": " ++ e),
              .tempDir :: (t ++ [.nameCreate]))
          | none => (.ok resp, .tempDir :: (t ++ [.nameCreate]))

/-- Decidable equality for `Except`, used to evaluate runner outcomes on
concrete inputs. -/
def exceptDecEq {α β : Type} [DecidableEq α] [DecidableEq β] :
    (x y : Except α β) → Decidable (x = y)
  | .error a, .error b =>
    if h : a = b then .isTrue (by rw [h]) else .isFalse (by simp [h])
  | .error _, .ok _ => .isFalse (by simp)
  | .ok _, .error _ => .isFalse (by simp)
  | .ok a, .ok b =>
    if h : a = b then .isTrue (by rw [h]) else .isFalse (by simp [h])

instance {α β : Type} [DecidableEq α] [DecidableEq β] : DecidableEq (Except α β) :=
  exceptDecEq

/-! ### Concrete instances used by witnesses and counterexamples -/

/-- Concrete output map exercising all three `SanitizedOutput` cases. -/
def rC2 : Result :=
  ⟨Version.zero,
    [("pw", ⟨GoVal.str "secret123", true⟩),
     ("url", ⟨GoVal.str "http://x", false⟩),
     ("bad", ⟨GoVal.unserializable "json: unsupported type: chan int", false⟩)]⟩

/-- Behavior where the apply step fails with a quota error and the
compensating destroy succeeds. -/
def bC1 : Behavior :=
  ⟨none, none, none, fun _ => none, some "quota exceeded", none, fun _ => none,
    .error "no state", .ok []⟩

/-- Behavior where the apply step fails and the compensating destroy
fails at the workspace-delete step. -/
def bC1d : Behavior :=
  ⟨none, none, none, fun _ => none, some "quota exceeded", none,
    fun _ => some "workspace locked", .error "no state", .ok []⟩

/-- Behavior of a successful apply whose pulled state has serial 7. -/
def bC5 : Behavior :=
  ⟨none, none, none, fun _ => none, none, none, fun _ => none,
    .ok (.parsed [("serial", .num 7)]),
    .ok [("vpc_id", ⟨GoVal.str "vpc-123", false⟩)]⟩

/-- Behavior for the workspace-ensure witness. -/
def bC6 : Behavior :=
  ⟨none, none, none, fun _ => none, none, none, fun _ => none,
    .error "unused", .ok []⟩

/-- Behavior for a fully successful destroy. -/
def bC7 : Behavior :=
  ⟨none, none, none, fun _ => none, none, none, fun _ => none,
    .error "unused", .ok []⟩

/-- Behavior where the engine apply succeeds but the post-apply state
pull fails, with `DeleteOnFailure` enabled on the action. -/
def bC3 : Behavior :=
  ⟨none, none, none, fun _ => none, none, none, fun _ => none,
    .error "pull boom", .ok []⟩

/-- Behavior where only the post-apply state read fails, destroys
disabled. -/
def bC3w : Behavior :=
  ⟨none, none, none, fun _ => none, none, none, fun _ => none,
    .error "state read failed", .ok []⟩

/-- Behavior of the first successful apply (engine stamps serial 3). -/
def bC8a : Behavior :=
  ⟨none, none, none, fun _ => none, none, none, fun _ => none,
    .ok (.parsed [("serial", .num 3)]), .ok []⟩

/-- Behavior of the second successful apply (engine stamps serial 5). -/
def bC8b : Behavior :=
  ⟨none, none, none, fun _ => none, none, none, fun _ => none,
    .ok (.parsed [("serial", .num 5)]), .ok []⟩

/-- Behavior whose backend init fails before anything else. -/
def bC9 : Behavior :=
  ⟨some "init failed", none, none, fun _ => none, none, none, fun _ => none,
    .error "unused", .ok []⟩

/-- An `in` runner environment with no prior state: the storage probe
reports the zero version and the backend lists only a different
workspace. -/
def envC4 : InEnv :=
  ⟨"/tmp", "/outputs", false, none, none, .ok ["other-env"], .ok [],
    .ok "0.11.7", .ok "raw-state", none, .ok "", none, .ok "v2", .ok [],
    none, none, .ok "raw-state", none, none⟩

/-- A plan-only read request carrying a non-zero version identity. -/
def reqC4 : InRequest := ⟨⟨"staging-env", none, "v-old", true⟩, "", "", false, ""⟩

/-- A plan-only read request for an environment with no state. -/
def reqC4plan : InRequest := ⟨⟨"app-env", none, "", true⟩, "", "", false, ""⟩

/-- A historical-runner environment for destroy-action reads. -/
def envC10 : InEnvOld :=
  ⟨"/tmp", "/outputs", false, none, none, .ok "v1", .ok [], none, none⟩

/-- A destroy-action read request whose version fails validation. -/
def reqC10bad : InRequestOld := ⟨⟨"", none, "", false⟩, "destroy"⟩

/-- A valid destroy-action read request for the historical runner. -/
def reqC10old : InRequestOld := ⟨⟨"prod-env", none, "", false⟩, "destroy"⟩

/-- A valid destroy-action read request for the current runner. -/
def reqC10new : InRequest := ⟨⟨"prod-env", some 4, "", false⟩, "destroy", "", false, "s3"⟩

/-! ### Shared helper lemmas -/

/-- Looking up a key after a key-preserving map applies the function to
the looked-up value. -/
theorem lookup_map_keyed {β γ : Type} (f : String → β → γ)
    (l : List (String × β)) (k : String) :
    (l.map (fun p => (p.1, f p.1 p.2))).lookup k = (l.lookup k).map (f k) := by
  induction l with
  | nil => rfl
  | cons hd tl ih =>
    rcases hd with ⟨k1, v1⟩
    by_cases h : k = k1
    · simp [List.lookup, h]
    · have hb : (k == k1) = false := beq_eq_false_iff_ne.mpr h
      simp [List.lookup, hb, ih]

/-- Lemma: `currentSerial` always performs exactly one `StatePull` call. -/
theorem currentSerial_trace (a : Action) (b : Behavior) :
    (a.currentSerial b).2 = [Call.pullCall] := by
  rcases h : b.pullRes with e | rs
  · simp [Action.currentSerial, h]
  · rcases rs with ⟨err, out⟩ | fields
    · simp [Action.currentSerial, h]
    · rcases hv : fields.lookup "serial" with _ | v
      · simp [Action.currentSerial, h, hv]
      · rcases v <;> simp [Action.currentSerial, h, hv]

/-- Evaluation of a fully successful `Apply`: the returned pair is the
finalize-phase `Result` with a nil error, and the workspace exists in
the final engine state. -/
theorem apply_success_eval (a : Action) (b : Behavior) (s : ClientState)
    (fields : List (String × JVal)) (n : Int)
    (out : List (String × OutputRecord))
    (hinit : b.initErr = none) (himp : b.importErr = none)
    (hlist : b.listErr = none) (hnew : b.newErr a.EnvName = none)
    (happly : b.applyErr = none)
    (hpull : b.pullRes = .ok (.parsed fields))
    (hser : fields.lookup "serial" = some (.num n))
    (hout : b.outputRes = .ok out) :
    (Action.Apply a b s).1 =
      ({ Version := ⟨a.EnvName, some n, "", false⟩, Output := out }, none) ∧
    a.EnvName ∈ (Action.Apply a b s).2.1.workspaces := by
  by_cases hc : a.EnvName ∈ s.workspaces <;>
    simp [Action.Apply, Action.setup, Action.attemptApply,
      Action.createWorkspaceIfNotExists, Client.workspaceList, Client.workspaceNew,
      Action.currentSerial, hinit, himp, hlist, hnew, happly, hpull, hser, hout, hc]

/-! ### Claim theorems -/

/-- C2: `SanitizedOutput` has an entry for every output key; sensitive
records map to exactly the fixed redaction marker; non-sensitive records
map to their serialized value with surrounding quotes stripped; a
serialization failure maps to a diagnostic naming the key and the error
while the whole operation still produces a value. -/
theorem sanitizedOutput_spec (r : Result) :
    (r.SanitizedOutput.map Prod.fst = r.Output.map Prod.fst) ∧
    (∀ k v, r.Output.lookup k = some v →
      ((v.sensitive = true → r.SanitizedOutput.lookup k = some "<sensitive>") ∧
       (v.sensitive = false →
         ((∀ j, jsonMarshal v.value = Except.ok j →
             r.SanitizedOutput.lookup k = some (trimQuote j)) ∧
          (∀ e, jsonMarshal v.value = Except.error e →
            r.SanitizedOutput.lookup k =
              some (trimQuote ("Unable to parse output value for key " ++ squote ++
                k ++ squote ++ ": " ++ e))))))) := by
  constructor
  · simp [Result.SanitizedOutput]
  · intro k v hv
    have hl := lookup_map_keyed sanitizeRecord r.Output k
    rw [hv] at hl
    refine ⟨fun hs => ?_, fun hs => ⟨fun j hj => ?_, fun e he => ?_⟩⟩
    · rw [Result.SanitizedOutput, hl]
      simp [sanitizeRecord, hs]
    · rw [Result.SanitizedOutput, hl]
      simp [sanitizeRecord, hs, hj]
    · rw [Result.SanitizedOutput, hl]
      simp [sanitizeRecord, hs, he]

/-- Witness for C2 at a concrete output map. -/
theorem sanitizedOutput_spec_witness :
    rC2.SanitizedOutput.lookup "pw" = some "<sensitive>" ∧
    rC2.SanitizedOutput.lookup "url" = some "http://x" := by
  constructor
  · exact ((sanitizedOutput_spec rC2).2 "pw" ⟨GoVal.str "secret123", true⟩
      (by decide)).1 rfl
  · have h := (((sanitizedOutput_spec rC2).2 "url" ⟨GoVal.str "http://x", false⟩
      (by decide)).2 rfl).1 ("\"http://x\"") rfl
    rw [show trimQuote "\"http://x\"" = "http://x" by decide] at h
    exact h

/-- C1: when the apply step fails, `DeleteOnFailure = false` returns the
apply error immediately with no destroy attempt; `DeleteOnFailure = true`
attempts the compensating destroy exactly once, the returned error always
carries the apply error text (as a prefix), a rollback failure at either
step (the engine destroy or the workspace delete) is concatenated after
it (never replacing it), and a successful destroy still returns the
apply error. -/
theorem apply_rollback_policy (a : Action) (b : Behavior) (s : ClientState)
    (e : String)
    (hinit : b.initErr = none) (himp : b.importErr = none)
    (hlist : b.listErr = none) (hnew : b.newErr a.EnvName = none)
    (happly : b.applyErr = some e) :
    (a.DeleteOnFailure = false →
      (Action.Apply a b s).1.2 = some ("Apply Error: " ++ e) ∧
      countDestroy (Action.Apply a b s).2.2 = 0) ∧
    (a.DeleteOnFailure = true →
      countDestroy (Action.Apply a b s).2.2 = 1 ∧
      (∃ rest, (Action.Apply a b s).1.2 = some ("Apply Error: " ++ e ++ rest)) ∧
      (b.destroyErr = none → b.deleteErr a.EnvName = none →
        (Action.Apply a b s).1.2 = some ("Apply Error: " ++ e)) ∧
      (∀ d, b.destroyErr = some d →
        (Action.Apply a b s).1.2 =
          some ("Apply Error: " ++ e ++ "\nDestroy Error: " ++ d)) ∧
      (∀ d2, b.destroyErr = none → b.deleteErr a.EnvName = some d2 →
        (Action.Apply a b s).1.2 =
          some ("Apply Error: " ++ e ++ "\nDestroy Error: " ++ d2))) := by
  constructor
  · intro hdof
    by_cases hc : a.EnvName ∈ s.workspaces <;>
      simp [Action.Apply, Action.setup, Action.attemptApply,
        Action.createWorkspaceIfNotExists, Client.workspaceList,
        Client.workspaceNew, hinit, himp, hlist, hnew, happly, hdof, hc,
        countDestroy]
  · intro hdof
    refine ⟨?_, ?_, ?_, ?_, ?_⟩
    · rcases hd : b.destroyErr with _ | d
      · rcases hdel : b.deleteErr a.EnvName with _ | d2 <;>
          by_cases hc : a.EnvName ∈ s.workspaces <;>
            simp [Action.Apply, Action.setup, Action.attemptApply,
              Action.createWorkspaceIfNotExists, Client.workspaceList,
              Client.workspaceNew, Action.attemptDestroy, Client.workspaceDelete,
              hinit, himp, hlist, hnew, happly, hdof, hd, hdel, hc, countDestroy]
      · by_cases hc : a.EnvName ∈ s.workspaces <;>
          simp [Action.Apply, Action.setup, Action.attemptApply,
            Action.createWorkspaceIfNotExists, Client.workspaceList,
            Client.workspaceNew, Action.attemptDestroy, Client.workspaceDelete,
            hinit, himp, hlist, hnew, happly, hdof, hd, hc, countDestroy]
    · rcases hd : b.destroyErr with _ | d
      · rcases hdel : b.deleteErr a.EnvName with _ | d2
        · refine ⟨"", ?_⟩
          by_cases hc : a.EnvName ∈ s.workspaces <;>
            simp [Action.Apply, Action.setup, Action.attemptApply,
              Action.createWorkspaceIfNotExists, Client.workspaceList,
              Client.workspaceNew, Action.attemptDestroy, Client.workspaceDelete,
              hinit, himp, hlist, hnew, happly, hdof, hd, hdel, hc,
              String.append_empty]
        · refine ⟨"\nDestroy Error: " ++ d2, ?_⟩
          by_cases hc : a.EnvName ∈ s.workspaces <;>
            simp [Action.Apply, Action.setup, Action.attemptApply,
              Action.createWorkspaceIfNotExists, Client.workspaceList,
              Client.workspaceNew, Action.attemptDestroy, Client.workspaceDelete,
              hinit, himp, hlist, hnew, happly, hdof, hd, hdel, hc,
              String.append_assoc]
      · refine ⟨"\nDestroy Error: " ++ d, ?_⟩
        by_cases hc : a.EnvName ∈ s.workspaces <;>
          simp [Action.Apply, Action.setup, Action.attemptApply,
            Action.createWorkspaceIfNotExists, Client.workspaceList,
            Client.workspaceNew, Action.attemptDestroy, Client.workspaceDelete,
            hinit, himp, hlist, hnew, happly, hdof, hd, hc, String.append_assoc]
    · intro hdno hdelno
      by_cases hc : a.EnvName ∈ s.workspaces <;>
        simp [Action.Apply, Action.setup, Action.attemptApply,
          Action.createWorkspaceIfNotExists, Client.workspaceList,
          Client.workspaceNew, Action.attemptDestroy, Client.workspaceDelete,
          hinit, himp, hlist, hnew, happly, hdof, hdno, hdelno, hc]
    · intro d hd
      by_cases hc : a.EnvName ∈ s.workspaces <;>
        simp [Action.Apply, Action.setup, Action.attemptApply,
          Action.createWorkspaceIfNotExists, Client.workspaceList,
          Client.workspaceNew, Action.attemptDestroy, Client.workspaceDelete,
          hinit, himp, hlist, hnew, happly, hdof, hd, hc, String.append_assoc]
    · intro d2 hdno hdel
      by_cases hc : a.EnvName ∈ s.workspaces <;>
        simp [Action.Apply, Action.setup, Action.attemptApply,
          Action.createWorkspaceIfNotExists, Client.workspaceList,
          Client.workspaceNew, Action.attemptDestroy, Client.workspaceDelete,
          hinit, himp, hlist, hnew, happly, hdof, hdno, hdel, hc,
          String.append_assoc]

/-- Witness for C1: after a successful rollback the surfaced error still
carries the apply error with exactly one destroy attempted, and a
rollback that fails at the workspace-delete step surfaces both the apply
error and the destroy error. -/
theorem apply_rollback_policy_witness :
    (countDestroy (Action.Apply ⟨"prod", true⟩ bC1 ⟨[]⟩).2.2 = 1 ∧
     (Action.Apply ⟨"prod", true⟩ bC1 ⟨[]⟩).1.2 =
       some ("Apply Error: " ++ "quota exceeded")) ∧
    (Action.Apply ⟨"prod", true⟩ bC1d ⟨[]⟩).1.2 =
      some ("Apply Error: " ++ "quota exceeded" ++ "\nDestroy Error: " ++
        "workspace locked") := by
  have h := (apply_rollback_policy ⟨"prod", true⟩ bC1 ⟨[]⟩ "quota exceeded"
    rfl rfl rfl rfl rfl).2 rfl
  have h2 := (apply_rollback_policy ⟨"prod", true⟩ bC1d ⟨[]⟩ "quota exceeded"
    rfl rfl rfl rfl rfl).2 rfl
  exact ⟨⟨h.1, h.2.2.1 rfl rfl⟩, h2.2.2.2.2 "workspace locked" rfl rfl⟩

/-- C5: after a successful engine apply the finalize step returns
`Result` with `Version = {EnvName, Serial}` where `Serial` is the parsed
top-level `serial` of the pulled state together with the read outputs
(and the state was pulled and the outputs were read); when the `serial`
field is absent or not numeric the operation fails with the
malformed-state error instead of returning a `Result`. -/
theorem attemptApply_finalize (a : Action) (b : Behavior) (s : ClientState)
    (hlist : b.listErr = none) (hnew : b.newErr a.EnvName = none)
    (happly : b.applyErr = none) :
    (∀ fields n out, b.pullRes = .ok (.parsed fields) →
        fields.lookup "serial" = some (.num n) →
        b.outputRes = .ok out →
        (a.attemptApply b s).1 =
          .ok { Version := ⟨a.EnvName, some n, "", false⟩, Output := out } ∧
        Call.pullCall ∈ (a.attemptApply b s).2.2 ∧
        Call.outputCall ∈ (a.attemptApply b s).2.2) ∧
    (∀ fields, b.pullRes = .ok (.parsed fields) →
        (∀ n, fields.lookup "serial" ≠ some (.num n)) →
        ∃ g, (a.attemptApply b s).1 =
          .error ("Expected number value for " ++ squote ++ "serial" ++ squote ++
            " but got " ++ squote ++ g ++ squote)) := by
  constructor
  · intro fields n out hp hs ho
    by_cases hc : a.EnvName ∈ s.workspaces <;>
      simp [Action.attemptApply, Action.createWorkspaceIfNotExists,
        Client.workspaceList, Client.workspaceNew, Action.currentSerial,
        hlist, hnew, happly, hp, hs, ho, hc]
  · intro fields hp hser
    refine ⟨goShowOpt (fields.lookup "serial"), ?_⟩
    rcases hv : fields.lookup "serial" with _ | v
    · by_cases hc : a.EnvName ∈ s.workspaces <;>
        simp [Action.attemptApply, Action.createWorkspaceIfNotExists,
          Client.workspaceList, Client.workspaceNew, Action.currentSerial,
          hlist, hnew, happly, hp, hv, hc]
    · cases v with
      | num n => exact absurd hv (hser n)
      | str sv =>
        by_cases hc : a.EnvName ∈ s.workspaces <;>
          simp [Action.attemptApply, Action.createWorkspaceIfNotExists,
            Client.workspaceList, Client.workspaceNew, Action.currentSerial,
            hlist, hnew, happly, hp, hv, hc]
      | bool bv =>
        by_cases hc : a.EnvName ∈ s.workspaces <;>
          simp [Action.attemptApply, Action.createWorkspaceIfNotExists,
            Client.workspaceList, Client.workspaceNew, Action.currentSerial,
            hlist, hnew, happly, hp, hv, hc]
      | null =>
        by_cases hc : a.EnvName ∈ s.workspaces <;>
          simp [Action.attemptApply, Action.createWorkspaceIfNotExists,
            Client.workspaceList, Client.workspaceNew, Action.currentSerial,
            hlist, hnew, happly, hp, hv, hc]

/-- Witness for C5 at a concrete successful apply. -/
theorem attemptApply_finalize_witness :
    (Action.attemptApply ⟨"prod", false⟩ bC5 ⟨["prod"]⟩).1 =
      .ok { Version := ⟨"prod", some 7, "", false⟩,
            Output := [("vpc_id", ⟨GoVal.str "vpc-123", false⟩)] } := by
  exact ((attemptApply_finalize ⟨"prod", false⟩ bC5 ⟨["prod"]⟩ rfl rfl rfl).1
    [("serial", JVal.num 7)] 7 [("vpc_id", ⟨GoVal.str "vpc-123", false⟩)]
    rfl (by decide) rfl).1

/-- C6: running the workspace-ensure step twice in sequence creates the
workspace at most once in total: the first run creates it exactly when it
is absent, the second run performs no create call, returns no error and
leaves the engine state unchanged. -/
theorem ensure_workspace_idempotent (a : Action) (b : Behavior) (s : ClientState)
    (hlist : b.listErr = none) (hnew : b.newErr a.EnvName = none) :
    (a.createWorkspaceIfNotExists b s).1 = .ok () ∧
    countNew a.EnvName (a.createWorkspaceIfNotExists b s).2.2 =
      (if a.EnvName ∈ s.workspaces then 0 else 1) ∧
    (a.createWorkspaceIfNotExists b (a.createWorkspaceIfNotExists b s).2.1).1 =
      .ok () ∧
    countNew a.EnvName
      (a.createWorkspaceIfNotExists b
        (a.createWorkspaceIfNotExists b s).2.1).2.2 = 0 ∧
    (a.createWorkspaceIfNotExists b (a.createWorkspaceIfNotExists b s).2.1).2.1 =
      (a.createWorkspaceIfNotExists b s).2.1 ∧
    countNew a.EnvName ((a.createWorkspaceIfNotExists b s).2.2 ++
      (a.createWorkspaceIfNotExists b
        (a.createWorkspaceIfNotExists b s).2.1).2.2) ≤ 1 := by
  by_cases hc : a.EnvName ∈ s.workspaces <;>
    simp [Action.createWorkspaceIfNotExists, Client.workspaceList,
      Client.workspaceNew, hlist, hnew, hc, countNew]

/-- Witness for C6 on an engine that starts with no workspaces. -/
theorem ensure_workspace_idempotent_witness :
    countNew "dev" (Action.createWorkspaceIfNotExists ⟨"dev", false⟩ bC6 ⟨[]⟩).2.2 = 1 ∧
    (Action.createWorkspaceIfNotExists ⟨"dev", false⟩ bC6
      (Action.createWorkspaceIfNotExists ⟨"dev", false⟩ bC6 ⟨[]⟩).2.1).1 = .ok () ∧
    countNew "dev"
      (Action.createWorkspaceIfNotExists ⟨"dev", false⟩ bC6
        (Action.createWorkspaceIfNotExists ⟨"dev", false⟩ bC6 ⟨[]⟩).2.1).2.2 = 0 := by
  have h := ensure_workspace_idempotent ⟨"dev", false⟩ bC6 ⟨[]⟩ rfl rfl
  refine ⟨?_, h.2.2.1, h.2.2.2.1⟩
  have h2 := h.2.1
  simpa using h2

/-- C7: a successful `Destroy` runs the engine destroy then deletes the
workspace named `EnvName`, and the returned `Result` carries a version
holding only the environment name (no serial) and an empty output map. -/
theorem destroy_protocol (a : Action) (b : Behavior) (s : ClientState)
    (hinit : b.initErr = none) (himp : b.importErr = none)
    (hdestroy : b.destroyErr = none) (hdelete : b.deleteErr a.EnvName = none) :
    (Action.Destroy a b s).1 =
      .ok { Version := ⟨a.EnvName, none, "", false⟩, Output := [] } ∧
    (Action.Destroy a b s).2.2 =
      [.initCall, .importCall, .destroyCall, .deleteCall a.EnvName] := by
  simp [Action.Destroy, Action.setup, Action.attemptDestroy,
    Client.workspaceDelete, hinit, himp, hdestroy, hdelete]

/-- Witness for C7 at a concrete environment. -/
theorem destroy_protocol_witness :
    (Action.Destroy ⟨"old-env", false⟩ bC7 ⟨["old-env"]⟩).1 =
      .ok { Version := ⟨"old-env", none, "", false⟩, Output := [] } ∧
    (Action.Destroy ⟨"old-env", false⟩ bC7 ⟨["old-env"]⟩).2.2 =
      [.initCall, .importCall, .destroyCall, .deleteCall "old-env"] :=
  destroy_protocol ⟨"old-env", false⟩ bC7 ⟨["old-env"]⟩ rfl rfl rfl rfl

/-- Lemma: `countDestroy` distributes over trace concatenation. -/
theorem countDestroy_append (t1 t2 : List Call) :
    countDestroy (t1 ++ t2) = countDestroy t1 + countDestroy t2 := by
  induction t1 with
  | nil => simp [countDestroy]
  | cons c t ih => simp [countDestroy, ih]; omega

/-- Lemma: `attemptApply` never invokes the engine destroy. -/
theorem attemptApply_no_destroy (a : Action) (b : Behavior) (s : ClientState) :
    countDestroy (a.attemptApply b s).2.2 = 0 := by
  rcases hl : b.listErr with _ | el <;>
  rcases ha : b.applyErr with _ | ea <;>
  rcases ho : b.outputRes with eo | oo <;>
  rcases hn : b.newErr a.EnvName with _ | en <;>
  rcases hcs : (a.currentSerial b).1 with ecs | ncs <;>
  by_cases hc : a.EnvName ∈ s.workspaces <;>
    simp [Action.attemptApply, Action.createWorkspaceIfNotExists,
      Client.workspaceList, Client.workspaceNew, currentSerial_trace,
      hl, ha, ho, hn, hcs, hc, countDestroy, countDestroy_append]

/-- When `attemptApply` fails, `Apply` wraps the failure as an apply
error and adds exactly one destroy attempt iff `DeleteOnFailure` is set. -/
theorem apply_wrap_error (a : Action) (b : Behavior) (s : ClientState) (e : String)
    (hinit : b.initErr = none) (himp : b.importErr = none)
    (hAA : (a.attemptApply b s).1 = .error e) :
    (∃ rest, (Action.Apply a b s).1.2 = some ("Apply Error: " ++ e ++ rest)) ∧
    countDestroy (Action.Apply a b s).2.2 =
      countDestroy (a.attemptApply b s).2.2 +
        (if a.DeleteOnFailure then 1 else 0) := by
  rcases hsplit : a.attemptApply b s with ⟨r, s1, t1⟩
  rw [hsplit] at hAA
  simp only at hAA
  subst hAA
  constructor
  · rcases hdof : a.DeleteOnFailure
    · exact ⟨"", by simp [Action.Apply, Action.setup, hinit, himp, hsplit, hdof,
        String.append_empty]⟩
    · rcases hd : b.destroyErr with _ | d
      · rcases hdel : b.deleteErr a.EnvName with _ | d2
        · exact ⟨"", by simp [Action.Apply, Action.setup, Action.attemptDestroy,
            Client.workspaceDelete, hinit, himp, hsplit, hdof, hd, hdel,
            String.append_empty]⟩
        · exact ⟨"\nDestroy Error: " ++ d2, by simp [Action.Apply, Action.setup,
            Action.attemptDestroy, Client.workspaceDelete, hinit, himp, hsplit,
            hdof, hd, hdel, String.append_assoc]⟩
      · exact ⟨"\nDestroy Error: " ++ d, by simp [Action.Apply, Action.setup,
          Action.attemptDestroy, Client.workspaceDelete, hinit, himp, hsplit,
          hdof, hd, String.append_assoc]⟩
  · rcases hdof : a.DeleteOnFailure
    · simp [Action.Apply, Action.setup, hinit, himp, hsplit, hdof,
        countDestroy_append, countDestroy]
    · rcases hd : b.destroyErr with _ | d
      · rcases hdel : b.deleteErr a.EnvName with _ | d2 <;>
          simp [Action.Apply, Action.setup, Action.attemptDestroy,
            Client.workspaceDelete, hinit, himp, hsplit, hdof, hd, hdel,
            countDestroy_append, countDestroy]
      · simp [Action.Apply, Action.setup, Action.attemptDestroy,
          Client.workspaceDelete, hinit, himp, hsplit, hdof, hd,
          countDestroy_append, countDestroy]

/-- Counterexample for C3: with the apply step itself succeeding and only
the post-apply `StatePull` failing, the code still performs a
compensating destroy (the claim says none is performed), and the error is
reported through the same channel with the same apply-error wrapping as
an apply-step failure (no distinct error kind). -/
theorem postapply_failure_cex :
    countDestroy (Action.Apply ⟨"env1", true⟩ bC3 ⟨[]⟩).2.2 = 1 ∧
    (Action.Apply ⟨"env1", true⟩ bC3 ⟨[]⟩).1.2 =
      some ("Apply Error: " ++ "pull boom") := by decide

/-- C3 (amended): when the apply step succeeds but the post-apply
`StatePull`/`Output` read fails, the operation returns the failure on the
same error channel wrapped with the same `Apply Error:` prefix as an
apply-step failure (no distinct kind), and a compensating destroy is
performed exactly when `DeleteOnFailure` is enabled. -/
theorem postapply_failure_behavior (a : Action) (b : Behavior) (s : ClientState)
    (e : String)
    (hinit : b.initErr = none) (himp : b.importErr = none)
    (hlist : b.listErr = none) (hnew : b.newErr a.EnvName = none)
    (happly : b.applyErr = none)
    (hfail : (a.currentSerial b).1 = .error e ∨
      ((∃ n, (a.currentSerial b).1 = Except.ok n) ∧ b.outputRes = .error e)) :
    (∃ rest, (Action.Apply a b s).1.2 = some ("Apply Error: " ++ e ++ rest)) ∧
    countDestroy (Action.Apply a b s).2.2 =
      (if a.DeleteOnFailure then 1 else 0) := by
  have hAA : (a.attemptApply b s).1 = .error e := by
    rcases hfail with hcs | ⟨⟨n, hok⟩, hout⟩
    · by_cases hc : a.EnvName ∈ s.workspaces <;>
        simp [Action.attemptApply, Action.createWorkspaceIfNotExists,
          Client.workspaceList, Client.workspaceNew, hlist, hnew, happly,
          hcs, hc]
    · by_cases hc : a.EnvName ∈ s.workspaces <;>
        simp [Action.attemptApply, Action.createWorkspaceIfNotExists,
          Client.workspaceList, Client.workspaceNew, hlist, hnew, happly,
          hok, hout, hc]
  have h := apply_wrap_error a b s e hinit himp hAA
  refine ⟨h.1, ?_⟩
  rw [h.2, attemptApply_no_destroy]
  omega

/-- Witness for the amended C3 at a concrete input. -/
theorem postapply_failure_behavior_witness :
    (∃ rest, (Action.Apply ⟨"env2", false⟩ bC3w ⟨["env2"]⟩).1.2 =
      some ("Apply Error: " ++ "state read failed" ++ rest)) ∧
    countDestroy (Action.Apply ⟨"env2", false⟩ bC3w ⟨["env2"]⟩).2.2 =
      (if (Action.mk "env2" false).DeleteOnFailure then 1 else 0) := by
  exact postapply_failure_behavior ⟨"env2", false⟩ bC3w ⟨["env2"]⟩
    "state read failed" rfl rfl rfl rfl rfl (Or.inl rfl)

/-- C8: across two successive successful applies of the same environment,
the returned `Serial` equals the serial parsed from the engine state of
each invocation, so under the documented engine contract that the
stamped serial is non-decreasing (spec section 3), the returned serials
are monotonically non-decreasing. -/
theorem serial_monotonic (a : Action) (b1 b2 : Behavior) (s : ClientState)
    (f1 f2 : List (String × JVal)) (n1 n2 : Int)
    (o1 o2 : List (String × OutputRecord))
    (h1i : b1.initErr = none) (h1m : b1.importErr = none)
    (h1l : b1.listErr = none) (h1n : b1.newErr a.EnvName = none)
    (h1a : b1.applyErr = none) (h1p : b1.pullRes = .ok (.parsed f1))
    (h1s : f1.lookup "serial" = some (.num n1)) (h1o : b1.outputRes = .ok o1)
    (h2i : b2.initErr = none) (h2m : b2.importErr = none)
    (h2l : b2.listErr = none) (h2n : b2.newErr a.EnvName = none)
    (h2a : b2.applyErr = none) (h2p : b2.pullRes = .ok (.parsed f2))
    (h2s : f2.lookup "serial" = some (.num n2)) (h2o : b2.outputRes = .ok o2)
    (hmono : n1 ≤ n2) :
    (Action.Apply a b1 s).1.2 = none ∧
    (Action.Apply a b1 s).1.1.Version.Serial = some n1 ∧
    (Action.Apply a b2 (Action.Apply a b1 s).2.1).1.1.Version.Serial = some n2 ∧
    (∀ k1 k2 : Int,
      (Action.Apply a b1 s).1.1.Version.Serial = some k1 →
      (Action.Apply a b2 (Action.Apply a b1 s).2.1).1.1.Version.Serial = some k2 →
      k1 ≤ k2) := by
  have H1 := apply_success_eval a b1 s f1 n1 o1 h1i h1m h1l h1n h1a h1p h1s h1o
  have H2 := apply_success_eval a b2 (Action.Apply a b1 s).2.1 f2 n2 o2
    h2i h2m h2l h2n h2a h2p h2s h2o
  refine ⟨?_, ?_, ?_, ?_⟩
  · rw [H1.1]
  · rw [H1.1]
  · rw [H2.1]
  · intro k1 k2 e1 e2
    rw [H1.1] at e1
    rw [H2.1] at e2
    simp at e1 e2
    omega

/-- Witness for C8 at two concrete successive applies. -/
theorem serial_monotonic_witness :
    (Action.Apply ⟨"api", false⟩ bC8a ⟨[]⟩).1.1.Version.Serial = some 3 ∧
    (Action.Apply ⟨"api", false⟩ bC8b
      (Action.Apply ⟨"api", false⟩ bC8a ⟨[]⟩).2.1).1.1.Version.Serial = some 5 := by
  have h := serial_monotonic ⟨"api", false⟩ bC8a bC8b ⟨[]⟩
    [("serial", JVal.num 3)] [("serial", JVal.num 5)] 3 5 [] []
    rfl rfl rfl rfl rfl rfl (by decide) rfl
    rfl rfl rfl rfl rfl rfl (by decide) rfl (by omega)
  exact ⟨h.2.1, h.2.2.1⟩

/-- C9: when setup fails (`InitWithBackend` or `Import`), both `Apply`
and `Destroy` abort immediately: the engine apply and destroy are never
invoked, no workspace is deleted, and the setup error is surfaced even
when `DeleteOnFailure` is enabled. -/
theorem setup_failure_aborts (a : Action) (b : Behavior) (s : ClientState)
    (e : String)
    (hsetup : b.initErr = some e ∨ (b.initErr = none ∧ b.importErr = some e)) :
    ((Action.Apply a b s).1.2 = some e ∧
     (Action.Apply a b s).1.1 = Result.zero ∧
     countApply (Action.Apply a b s).2.2 = 0 ∧
     countDestroy (Action.Apply a b s).2.2 = 0) ∧
    ((Action.Destroy a b s).1 = .error e ∧
     countDestroy (Action.Destroy a b s).2.2 = 0 ∧
     countDelete a.EnvName (Action.Destroy a b s).2.2 = 0) := by
  rcases hsetup with h | ⟨h1, h2⟩
  · simp [Action.Apply, Action.Destroy, Action.setup, h, countApply,
      countDestroy, countDelete]
  · simp [Action.Apply, Action.Destroy, Action.setup, h1, h2, countApply,
      countDestroy, countDelete]

/-- Witness for C9: a failed init aborts with no engine apply or destroy
even though `DeleteOnFailure` is enabled. -/
theorem setup_failure_aborts_witness :
    (Action.Apply ⟨"web", true⟩ bC9 ⟨[]⟩).1.2 = some "init failed" ∧
    countApply (Action.Apply ⟨"web", true⟩ bC9 ⟨[]⟩).2.2 = 0 ∧
    countDestroy (Action.Apply ⟨"web", true⟩ bC9 ⟨[]⟩).2.2 = 0 := by
  have h := setup_failure_aborts ⟨"web", true⟩ bC9 ⟨[]⟩ "init failed" (Or.inl rfl)
  exact ⟨h.1.1, h.1.2.2.1, h.1.2.2.2⟩

/-- Counterexample for C4: a plan-only read with no prior state succeeds
but returns the version of the request unchanged, which is not the zero-value
version the claim requires. -/
theorem plan_no_state_cex :
    (Runner.inWithLegacyStorage envC4 reqC4).1 =
      .ok { Version := ⟨"staging-env", none, "v-old", true⟩, Metadata := [] } ∧
    Version.IsZero ⟨"staging-env", none, "v-old", true⟩ = false := by decide

/-- C4 (amended): for a read of an environment with no prior state, in
both persistence modes, a plan-only request succeeds and returns the
request version unchanged (not necessarily a zero-value version), while
a genuine non-plan read fails with a not-found error naming the missing
state (the state-file key in legacy mode, the workspace in backend
mode). -/
theorem in_no_prior_state (env : InEnv) (req : InRequest) (spaces : List String)
    (hstor : env.storageValidateErr = none)
    (hprobe : env.probeRes = .ok "")
    (hval : env.terraformValidateErr = none)
    (hinit : env.initErr = none)
    (hlist : env.listRes = .ok spaces)
    (habs : req.Version.EnvName ∉ spaces) :
    (req.Version.IsPlan = true →
      (Runner.inWithLegacyStorage env req).1 =
        .ok { Version := req.Version, Metadata := [] } ∧
      (Runner.inWithBackend env req).1 =
        .ok { Version := req.Version, Metadata := [] }) ∧
    (req.Version.IsPlan = false →
      (Runner.inWithLegacyStorage env req).1 =
        .error ("State file does not exist with key " ++ squote ++
          req.Version.EnvName ++ ".tfstate" ++ squote ++ "." ++
          "\nIf you intended to run the `destroy` action, add `put.get_params.action: destroy`." ++
          "\nThis is a temporary requirement until Concourse supports a `delete` step.") ∧
      (Runner.inWithBackend env req).1 =
        .error ("Workspace " ++ squote ++ req.Version.EnvName ++ squote ++
          " does not exist in backend." ++
          "\nIf you intended to run the `destroy` action, add `put.get_params.action: destroy`." ++
          "\nThis is a temporary requirement until Concourse supports a `delete` step.")) := by
  constructor <;> intro hplan <;>
    constructor <;>
      simp [Runner.inWithLegacyStorage, Runner.inWithBackend, hstor, hprobe,
        hval, hinit, hlist, habs, hplan]

/-- Witness for the amended C4: both modes answer a plan-only no-state
read with the version of the request and no error. -/
theorem in_no_prior_state_witness :
    (Runner.inWithLegacyStorage envC4 reqC4plan).1 =
      .ok { Version := reqC4plan.Version, Metadata := [] } ∧
    (Runner.inWithBackend envC4 reqC4plan).1 =
      .ok { Version := reqC4plan.Version, Metadata := [] } := by
  exact (in_no_prior_state envC4 reqC4plan ["other-env"] rfl rfl rfl rfl rfl
    (by decide)).1 rfl

/-- Counterexample for C10: a destroy-action get whose version does not
validate (empty `env_name`) returns an error, not success with the
version echoed. -/
theorem in_destroy_invalid_cex :
    (RunnerOld.Run envC10 reqC10bad).1 =
      .error ("Invalid Version request: " ++
        ("Missing required field " ++ squote ++ "env_name" ++ squote)) := by decide

/-- C10 (amended): for every in (get) request whose version passes
validation and whose params specify the destroy action, both runner
versions return successfully with the version of the request unchanged, no
metadata, and an empty external-call trace (no storage probe, no state
download, no engine invocation). -/
theorem in_destroy_passthrough (envO : InEnvOld) (reqO : InRequestOld)
    (env : InEnv) (req : InRequest)
    (hvalO : reqO.Version.Validate = none)
    (hactO : reqO.ActionParam = DestroyAction)
    (hval : req.Version.Validate = none)
    (hact : req.ActionParam = DestroyAction) :
    RunnerOld.Run envO reqO =
      (.ok { Version := reqO.Version, Metadata := [] }, []) ∧
    Runner.Run env req =
      (.ok { Version := req.Version, Metadata := [] }, []) := by
  constructor
  · simp [RunnerOld.Run, hvalO, hactO]
  · simp [Runner.Run, hval, hact]

/-- Witness for the amended C10 at concrete destroy-action requests. -/
theorem in_destroy_passthrough_witness :
    RunnerOld.Run envC10 reqC10old =
      (.ok { Version := reqC10old.Version, Metadata := [] }, []) ∧
    Runner.Run envC4 reqC10new =
      (.ok { Version := reqC10new.Version, Metadata := [] }, []) := by
  exact in_destroy_passthrough envC10 reqC10old envC4 reqC10new
    (by decide) (by decide) (by decide) (by decide)

end TR
